import Mathlib

/-
Verification of the shipment-charge → draft-invoice sync pipeline:
a shallow embedding of the row transformation (`create_line_items`,
`create_invoice`), the batch loop (`process_invoices`), the run summary,
and the OAuth2 token lifecycle (`is_token_expired`,
`refresh_token_if_expired_decorator`) from `main.py` / `app.py`.
Numeric amounts are modelled as rationals; timestamps as rationals
(seconds); civil dates via day counts since 0001-01-01.
-/

deriving instance DecidableEq for Except

namespace XeroSync

/-! ## Python-primitive helpers

Structural models of the Python string/number primitives the scripts
use (`str.split`, `int(...)`, `str.upper`, `abs`). -/

def splitChars (sep : Char) : List Char → List (List Char)
  | [] => [[]]
  | c :: rest =>
    if c = sep then [] :: splitChars sep rest
    else match splitChars sep rest with
      | [] => [[c]]
      | h :: t => (c :: h) :: t

/-- `s.split('/')` (keeps empty pieces, never returns an empty list). -/
def pySplit (sep : Char) (s : String) : List String :=
  (splitChars sep s.data).map String.mk

def charsToNat? (cs : List Char) : Option ℕ :=
  if cs ≠ [] ∧ cs.all Char.isDigit then
    some (cs.foldl (fun a c => a * 10 + (c.toNat - 48)) 0)
  else none

/-- `str.upper()`. -/
def pyUpper (s : String) : String := String.mk (s.data.map Char.toUpper)

/-- Python `abs` on an exact rational. -/
def pyAbs (q : ℚ) : ℚ := if q < 0 then -q else q

/-! ## Calendar arithmetic

`parser.parse(f"{year}-{month:02d}-{day:02d}T00:00:00Z")` yields a UTC
midnight instant; `+ pd.Timedelta(days=30)` adds exactly 30 * 86400
seconds, i.e. 30 to the day number. We model an instant as a day number
(days since 0001-01-01, proleptic Gregorian) plus a second-of-day. -/

def isLeap (y : ℕ) : Bool :=
  decide (y % 4 = 0 ∧ (y % 100 ≠ 0 ∨ y % 400 = 0))

def daysInMonth (y m : ℕ) : ℕ :=
  if m = 2 then (if isLeap y then 29 else 28)
  else if m = 4 ∨ m = 6 ∨ m = 9 ∨ m = 11 then 30
  else 31

def daysBeforeMonth (y : ℕ) : ℕ → ℕ
  | 0 => 0
  | 1 => 0
  | m + 2 => daysBeforeMonth y (m + 1) + daysInMonth y (m + 1)

structure Ymd where
  y : ℕ
  m : ℕ
  d : ℕ
deriving DecidableEq, Repr

def leapsBefore (y : ℕ) : ℕ := y / 4 - y / 100 + y / 400

def daysFromCivil (x : Ymd) : ℕ :=
  365 * (x.y - 1) + leapsBefore (x.y - 1) + daysBeforeMonth x.y x.m + (x.d - 1)

def validYmd (x : Ymd) : Prop :=
  1 ≤ x.y ∧ 1 ≤ x.m ∧ x.m ≤ 12 ∧ 1 ≤ x.d ∧ x.d ≤ daysInMonth x.y x.m

instance (x : Ymd) : Decidable (validYmd x) := by
  unfold validYmd; infer_instance

def nextDay (x : Ymd) : Ymd :=
  if x.d < daysInMonth x.y x.m then ⟨x.y, x.m, x.d + 1⟩
  else if x.m < 12 then ⟨x.y, x.m + 1, 1⟩
  else ⟨x.y + 1, 1, 1⟩

/-- Adding `n` calendar days: `n` single-day steps. -/
def addDays : ℕ → Ymd → Ymd
  | 0, x => x
  | n + 1, x => addDays n (nextDay x)

/-- A UTC instant: day number since 0001-01-01 plus second of day. -/
structure Instant where
  day : ℕ
  sod : ℕ
deriving DecidableEq, Repr

/-! ## Date-field parsing

`month, day, year = map(int, row['Inv. Date'].split('/'))` followed by
`parser.parse(f"{year}-{month:02d}-{day:02d}T00:00:00Z")`.  `map` is
lazy, so unpacking applies `int` to the pieces left to right and raises
on the first non-integer; a wrong piece count raises an unpacking error
(for more than 3 pieces only after `int` has consumed a fourth value). -/

def pyInt (s : String) : Except String ℕ :=
  match charsToNat? s.data with
  | some n => .ok n
  | none => .error ("invalid literal for int() with base 10: " ++ s)

def unpack3 : List String → Except String (ℕ × ℕ × ℕ)
  | [] => .error "not enough values to unpack (expected 3, got 0)"
  | [a] =>
    (pyInt a).bind fun _ =>
      .error "not enough values to unpack (expected 3, got 1)"
  | [a, b] =>
    (pyInt a).bind fun _ => (pyInt b).bind fun _ =>
      .error "not enough values to unpack (expected 3, got 2)"
  | [a, b, c] =>
    (pyInt a).bind fun m => (pyInt b).bind fun d => (pyInt c).bind fun y =>
      .ok (m, d, y)
  | a :: b :: c :: e :: _ =>
    (pyInt a).bind fun _ => (pyInt b).bind fun _ => (pyInt c).bind fun _ =>
      (pyInt e).bind fun _ =>
        .error "too many values to unpack (expected 3)"

/-- Validity check performed by `parser.parse` / `datetime` on the
rebuilt `YYYY-MM-DDT00:00:00Z` string. -/
def checkDate (m d y : ℕ) : Except String Ymd :=
  if y < 1 ∨ 9999 < y then .error "year is out of range"
  else if m < 1 ∨ 12 < m then .error "month must be in 1..12"
  else if d < 1 ∨ daysInMonth y m < d then .error "day is out of range for month"
  else .ok ⟨y, m, d⟩

def parseDateValue (s : String) : Except String Ymd :=
  match unpack3 (pySplit '/' s) with
  | .error e => .error e
  | .ok (m, d, y) => checkDate m d y

/-- Largest day number representable by `datetime` (year 9999). -/
def lastDay : ℕ := daysFromCivil ⟨9999, 12, 31⟩

/-! ## Data model -/

structure LineItem where
  description : String
  quantity : ℚ
  unit_amount : ℚ
  account_code : String
  tax_type : String
  line_amount : ℚ
deriving DecidableEq, Repr

structure Invoice where
  type : String
  contact_id : String
  line_items : List LineItem
  date : Instant
  due_date : Instant
  reference : String
  status : String
  line_amount_types : String
deriving DecidableEq, Repr

/-- One processed spreadsheet row (post `process_spreadsheet_data`:
charge columns numeric, absent modelled as `none`). -/
structure ChargeRow where
  shipment : String
  jobInvoice : String
  type : String
  invDate : String
  charges : String → Option ℚ
  totalInvoice : Option ℚ

def chargeDescriptions : List (String × String) :=
  [("BRK", "Brokerage"), ("CDS", "Customs Duties"), ("DST", "Destination Charges"),
   ("FRT", "Freight Charges"), ("INS", "Insurance"), ("LOD", "Loading Charges"),
   ("ORG", "Origin Charges"), ("OBR", "Other Brokerage"), ("OBO", "Other Charges"),
   ("TRN", "Transportation")]

def isCreditNote (r : ChargeRow) : Bool := pyUpper r.type == "CRD"

def mkLineItem (r : ChargeRow) (p : String × String) : LineItem :=
  let amount := (r.charges p.1).getD 0
  let amt := if isCreditNote r then -pyAbs amount else pyAbs amount
  { description := p.2 ++ " - " ++ r.jobInvoice
    quantity := 1
    unit_amount := amt
    account_code := "200"
    tax_type := "NONE"
    line_amount := amt }

/-- `InvoiceProcessor.create_line_items` (main.py:129-150). -/
def create_line_items (r : ChargeRow) : List LineItem :=
  chargeDescriptions.filterMap fun p =>
    if (r.charges p.1).getD 0 = 0 then none else some (mkLineItem r p)

/-- `InvoiceProcessor.create_invoice` (main.py:61-95): line items first
(empty set is a hard failure naming the shipment), then the date dance,
then the draft record. -/
def create_invoice (r : ChargeRow) (contact_id : String) : Except String Invoice :=
  let line_items := create_line_items r
  if line_items.isEmpty then
    .error ("No valid charges found for shipment " ++ r.shipment)
  else
    match parseDateValue r.invDate with
    | .error e => .error e
    | .ok ymd =>
      if lastDay < daysFromCivil ymd + 30 then .error "date value out of range"
      else
        .ok { type := if isCreditNote r then "ACCRECCREDIT" else "ACCREC"
              contact_id := contact_id
              line_items := line_items
              date := ⟨daysFromCivil ymd, 0⟩
              due_date := ⟨daysFromCivil ymd + 30, 0⟩
              reference := r.jobInvoice
              status := "DRAFT"
              line_amount_types := "EXCLUSIVE" }

/-! ## Batch submission (main.py:152-197, app.py:616-657)

The remote `create_invoices` call is a collaborator; per row it either
returns a response (list of invoices, each with an optional id), raises
`AccountingBadRequestException`, or raises some other exception.  The
oracle `submit` supplies the outcome for each row position. -/

structure RespInvoice where
  invoice_id : Option String
deriving DecidableEq, Repr

structure InvoicesResponse where
  invoices : List RespInvoice
deriving DecidableEq, Repr

inductive SubmitResult where
  | ok (resp : InvoicesResponse)
  | badRequest (reason : String)
  | fail (msg : String)
deriving DecidableEq, Repr

inductive Outcome where
  | success (shipment jobInvoice type : String) (invoice_id : Option String)
      (amount : ℚ) (date : String)
  | error (shipment jobInvoice type : String) (message : String)
deriving DecidableEq, Repr

/-- `invoice_id = None; if response and response.invoices:
invoice_id = response.invoices[0].invoice_id`. -/
def firstInvoiceId (resp : InvoicesResponse) : Option String :=
  match resp.invoices with
  | [] => none
  | i :: _ => i.invoice_id

/-- One iteration of the `for idx, row in df.iterrows()` body: any
exception from transforming or submitting the row is caught and turned
into an error entry (with the `AccountingBadRequestException` message
rewritten), after which the loop continues. -/
def processRow (submit : ℕ → Invoice → SubmitResult) (contact_id : String)
    (i : ℕ) (r : ChargeRow) : Outcome :=
  match create_invoice r contact_id with
  | .error msg => .error r.shipment r.jobInvoice r.type msg
  | .ok inv =>
    match submit i inv with
    | .ok resp =>
      .success r.shipment r.jobInvoice r.type (firstInvoiceId resp)
        (r.totalInvoice.getD 0) r.invDate
    | .badRequest reason =>
      .error r.shipment r.jobInvoice r.type ("Xero API Error: " ++ reason)
    | .fail msg => .error r.shipment r.jobInvoice r.type msg

/-- `InvoiceProcessor.process_invoices` (main.py:152-197). -/
def process_invoices (submit : ℕ → Invoice → SubmitResult) (contact_id : String) :
    ℕ → List ChargeRow → List Outcome
  | _, [] => []
  | i, r :: rest =>
    processRow submit contact_id i r :: process_invoices submit contact_id (i + 1) rest

/-! ## Run summary (app.py:659-678) -/

def statusOf : Outcome → String
  | .success _ _ _ _ _ _ => "success"
  | .error _ _ _ _ => "error"

/-- `float(r.get('amount', 0))`: error entries have no amount key. -/
def amountOf : Outcome → ℚ
  | .success _ _ _ _ a _ => a
  | .error _ _ _ _ => 0

/-- Round-half-even on an exact rational, as Python `round` on the
scaled value. -/
def roundHalfEven (q : ℚ) : ℤ :=
  let f := ⌊q⌋
  let r := q - (f : ℚ)
  if r < 1 / 2 then f
  else if 1 / 2 < r then f + 1
  else if f % 2 = 0 then f else f + 1

def round2 (q : ℚ) : ℚ := (roundHalfEven (q * 100) : ℚ) / 100

structure Summary where
  total_processed : ℕ
  successful : ℕ
  failed : ℕ
  total_amount : ℚ
deriving DecidableEq, Repr

/-- Summary block of `create_invoices_from_sheet` (app.py:659-672). -/
def runSummary (results : List Outcome) : Summary :=
  { total_processed := results.length
    successful := results.countP (fun r => statusOf r == "success")
    failed := results.countP (fun r => statusOf r == "error")
    total_amount :=
      round2 (((results.filter fun r => statusOf r == "success").map amountOf).sum) }

/-! ## Token lifecycle (app.py:90-150)

The session token is a dict with an optional `expires_at`; `now` is the
wall clock at the expiry check.  `api_client.refresh_oauth2_token()`
and the wrapped route `f` are collaborators: the environment lists the
result of the k-th refresh call (`none` = raised) and of the k-th
invocation of `f`. -/

structure Token where
  expires_at : Option ℤ
deriving DecidableEq, Repr

/-- `is_token_expired` (app.py:94-101); timestamps in whole seconds. -/
def is_token_expired (token : Option Token) (now : ℤ) : Bool :=
  match token with
  | none => true
  | some t =>
    match t.expires_at with
    | none => true
    | some e => decide (e - now < 30)

inductive FResult (α : Type) where
  | ok (v : α)
  | apiErr (status : ℕ)
deriving DecidableEq, Repr

structure Env (α : Type) where
  now : ℤ
  refresh : ℕ → Option Token
  call : ℕ → FResult α

/-- Observable counters: stored session token, number of refresh
round-trips, number of invocations of the wrapped operation. -/
structure St where
  stored : Option Token
  refreshCount : ℕ
  fCount : ℕ
deriving DecidableEq, Repr

inductive DecResult (α : Type) where
  | value (v : α)
  | redirectLogin
  | raiseApi (status : ℕ)
  | raiseTokenRefresh
deriving DecidableEq, Repr

inductive IterOut (α : Type) where
  | done (r : DecResult α) (st : St)
  | cont (st : St) (retries : ℕ)
deriving DecidableEq, Repr

/-- `return f(*args, **kwargs)` and the `except ApiException` handler
(app.py:133-144): a 401 with retries left triggers a refresh; a failed
refresh there raises `TokenRefreshError` from inside the handler, which
the sibling `except TokenRefreshError` clause of the same `try` cannot
catch, so it propagates. -/
def callStep (env : Env α) (st : St) (retries : ℕ) : IterOut α :=
  let res := env.call st.fCount
  let st1 : St := { st with fCount := st.fCount + 1 }
  match res with
  | .ok v => .done (.value v) st1
  | .apiErr s =>
    if s = 401 ∧ retries < 1 then
      match env.refresh st1.refreshCount with
      | some t =>
        .cont { st1 with stored := some t, refreshCount := st1.refreshCount + 1 }
          (retries + 1)
      | none => .done .raiseTokenRefresh { st1 with refreshCount := st1.refreshCount + 1 }
    else .done (.raiseApi s) st1

/-- One iteration of the `while retries <= max_retries` body
(app.py:122-147): expiry check and pre-call refresh (whose failure
raises `TokenRefreshError` inside the `try`, caught by the sibling
handler and turned into a redirect to login), then the wrapped call. -/
def loopIter (env : Env α) (st : St) (retries : ℕ) : IterOut α :=
  if is_token_expired st.stored env.now then
    match env.refresh st.refreshCount with
    | none => .done .redirectLogin { st with refreshCount := st.refreshCount + 1 }
    | some t =>
      callStep env { st with stored := some t, refreshCount := st.refreshCount + 1 } retries
  else callStep env st retries

/-- `decorated_function` of `refresh_token_if_expired_decorator`
(app.py:115-150): `max_retries = 1`, so at most two loop iterations,
followed by the trailing (unreachable in practice) `return f(...)`. -/
def decoratedFunction (env : Env α) (t0 : Option Token) : DecResult α × St :=
  match loopIter env ⟨t0, 0, 0⟩ 0 with
  | .done r st => (r, st)
  | .cont st1 r1 =>
    match loopIter env st1 r1 with
    | .done r st => (r, st)
    | .cont st2 _ =>
      let res := env.call st2.fCount
      let st3 : St := { st2 with fCount := st2.fCount + 1 }
      match res with
      | .ok v => (.value v, st3)
      | .apiErr s => (.raiseApi s, st3)

/-! ## Substring occurrence (for error-message statements) -/

def listStarts : List Char → List Char → Bool
  | [], _ => true
  | _ :: _, [] => false
  | a :: as, b :: bs => a = b && listStarts as bs

def occursIn (needle : List Char) : List Char → Bool
  | [] => needle.isEmpty
  | c :: rest => listStarts needle (c :: rest) || occursIn needle rest

/-! ## Helper lemmas: calendar arithmetic -/

theorem leapsBefore_succ (y : ℕ) :
    leapsBefore (y + 1) = leapsBefore y + (if isLeap (y + 1) then 1 else 0) := by
  unfold leapsBefore
  split_ifs with h
  · simp only [isLeap, decide_eq_true_eq] at h
    omega
  · simp only [isLeap, decide_eq_true_eq, not_and, not_or, Decidable.not_not] at h
    omega

theorem daysInMonth_pos (y m : ℕ) : 1 ≤ daysInMonth y m := by
  unfold daysInMonth
  split_ifs <;> omega

theorem daysBeforeMonth_succ (y m : ℕ) (h : 1 ≤ m) :
    daysBeforeMonth y (m + 1) = daysBeforeMonth y m + daysInMonth y m := by
  cases m with
  | zero => omega
  | succ k => rfl

theorem yearTotal (y : ℕ) :
    daysBeforeMonth y 12 + daysInMonth y 12 = 365 + (if isLeap y then 1 else 0) := by
  by_cases h : isLeap y
  · simp only [daysBeforeMonth, daysInMonth, h]
    norm_num
  · simp only [daysBeforeMonth, daysInMonth, h]
    norm_num

theorem nextDay_valid (x : Ymd) (h : validYmd x) : validYmd (nextDay x) := by
  obtain ⟨y, m, d⟩ := x
  obtain ⟨hy, hm1, hm2, hd1, hd2⟩ := h
  dsimp only at hy hm1 hm2 hd1 hd2
  unfold nextDay
  dsimp only
  have p1 := daysInMonth_pos y (m + 1)
  have p2 := daysInMonth_pos (y + 1) 1
  split_ifs with h1 h2 <;>
    exact ⟨by dsimp only; omega, by dsimp only; omega, by dsimp only; omega,
      by dsimp only; omega, by dsimp only; omega⟩

theorem daysFromCivil_nextDay (x : Ymd) (h : validYmd x) :
    daysFromCivil (nextDay x) = daysFromCivil x + 1 := by
  obtain ⟨y, m, d⟩ := x
  obtain ⟨hy, hm1, hm2, hd1, hd2⟩ := h
  dsimp only at hy hm1 hm2 hd1 hd2
  unfold nextDay
  dsimp only
  split_ifs with h1 h2
  · simp only [daysFromCivil]
    omega
  · have e := daysBeforeMonth_succ y m hm1
    simp only [daysFromCivil]
    omega
  · have hm : m = 12 := by omega
    subst hm
    have hd31 : daysInMonth y 12 = 31 := by norm_num [daysInMonth]
    have hd : d = 31 := by omega
    subst hd
    obtain ⟨z, rfl⟩ : ∃ z, y = z + 1 := ⟨y - 1, by omega⟩
    have e1 := leapsBefore_succ z
    have e2 := yearTotal (z + 1)
    rw [hd31] at e2
    simp only [daysFromCivil]
    have hjan : daysBeforeMonth (z + 1 + 1) 1 = 0 := rfl
    rw [hjan]
    simp only [Nat.add_sub_cancel]
    by_cases hl : isLeap (z + 1)
    · simp only [hl, if_true] at e1 e2
      omega
    · simp only [hl, if_false] at e1 e2
      omega

theorem daysFromCivil_addDays (n : ℕ) :
    ∀ x : Ymd, validYmd x →
      daysFromCivil (addDays n x) = daysFromCivil x + n ∧ validYmd (addDays n x) := by
  induction n with
  | zero => intro x hx; exact ⟨rfl, hx⟩
  | succ k ih =>
    intro x hx
    have hstep := daysFromCivil_nextDay x hx
    have hv := nextDay_valid x hx
    obtain ⟨ha, hb⟩ := ih (nextDay x) hv
    refine ⟨?_, hb⟩
    simp only [addDays]
    omega

theorem parseDateValue_valid (s : String) (x : Ymd) (h : parseDateValue s = .ok x) :
    validYmd x ∧ x.y ≤ 9999 := by
  unfold parseDateValue at h
  cases hu : unpack3 (pySplit '/' s) with
  | error e => rw [hu] at h; exact Except.noConfusion h
  | ok t =>
    obtain ⟨m, d, y⟩ := t
    rw [hu] at h
    dsimp only at h
    unfold checkDate at h
    split_ifs at h with h1 h2 h3
    all_goals
      first
      | exact Except.noConfusion h
      | · simp only [Except.ok.injEq] at h
          subst h
          push_neg at h1 h2 h3
          constructor
          · show 1 ≤ y ∧ 1 ≤ m ∧ m ≤ 12 ∧ 1 ≤ d ∧ d ≤ daysInMonth y m
            omega
          · show y ≤ 9999
            omega

/-! ## Helper lemmas: lists and the batch loop -/

theorem filterMap_guard {α β : Type} (q : α → ℚ) (g : α → β) (l : List α) :
    (l.filterMap fun a => if q a = 0 then none else some (g a)) =
      (l.filter fun a => decide (q a ≠ 0)).map g := by
  induction l with
  | nil => rfl
  | cons a t ih =>
    by_cases h : q a = 0 <;> simp [h, ih]

theorem process_invoices_length (submit : ℕ → Invoice → SubmitResult)
    (contact : String) : ∀ (rows : List ChargeRow) (i : ℕ),
    (process_invoices submit contact i rows).length = rows.length := by
  intro rows
  induction rows with
  | nil => intro i; rfl
  | cons r t ih => intro i; simp [process_invoices, ih]

theorem process_invoices_getElem (submit : ℕ → Invoice → SubmitResult)
    (contact : String) : ∀ (rows : List ChargeRow) (i k : ℕ),
    (process_invoices submit contact i rows)[k]? =
      (rows[k]?).map (processRow submit contact (i + k)) := by
  intro rows
  induction rows with
  | nil => intro i k; rfl
  | cons r t ih =>
    intro i k
    cases k with
    | zero => simp [process_invoices]
    | succ j =>
      have e : i + 1 + j = i + (j + 1) := by omega
      simp only [process_invoices, List.getElem?_cons_succ, ih (i + 1) j, e]

theorem outcome_partition (res : List Outcome) :
    (res.filter fun o => statusOf o == "success").length
      + (res.filter fun o => statusOf o == "error").length = res.length := by
  induction res with
  | nil => rfl
  | cons o t ih =>
    cases o with
    | success a b c d e f =>
      have h1 : (statusOf (.success a b c d e f) == "success") = true := rfl
      have h2 : (statusOf (.success a b c d e f) == "error") = false := rfl
      simp [List.filter_cons, h1, h2]
      omega
    | error a b c d =>
      have h1 : (statusOf (.error a b c d) == "success") = false := rfl
      have h2 : (statusOf (.error a b c d) == "error") = true := rfl
      simp [List.filter_cons, h1, h2]
      omega

/-! ## Sample rows used by witnesses -/

/-- Valid row with one nonzero charge (spec example: FRT 50, STD). -/
def c4row : ChargeRow :=
  { shipment := "S1", jobInvoice := "J-100", type := "STD", invDate := "03/01/2024",
    charges := fun c => if c = "FRT" then some 50 else none, totalInvoice := some 50 }

/-- Row with all known charge codes zero/absent. -/
def c5row : ChargeRow :=
  { shipment := "S0", jobInvoice := "J0", type := "STD", invDate := "01/15/2024",
    charges := fun _ => none, totalInvoice := none }

/-- Row with a nonzero charge but an unparseable invoice date. -/
def c7row : ChargeRow :=
  { shipment := "SHIP77", jobInvoice := "J1", type := "STD", invDate := "banana",
    charges := fun c => if c = "FRT" then some 50 else none, totalInvoice := none }

/-! ## Claims -/

/-- C4: for every charge row and charge code with nonzero amount `a`,
the produced line item has `unit_amount = line_amount = -abs a` when the
row type upper-cases to `"CRD"` and `abs a` otherwise; and every
produced line item has `unit_amount = line_amount`. -/
theorem c4 (r : ChargeRow) (code descr : String)
    (hmem : (code, descr) ∈ chargeDescriptions)
    (hnz : (r.charges code).getD 0 ≠ 0) :
    (∃ li ∈ create_line_items r,
      li.description = descr ++ " - " ++ r.jobInvoice ∧
      li.unit_amount =
        (if isCreditNote r then -pyAbs ((r.charges code).getD 0)
         else pyAbs ((r.charges code).getD 0)) ∧
      li.line_amount = li.unit_amount) ∧
    ∀ li ∈ create_line_items r, li.unit_amount = li.line_amount := by
  constructor
  · refine ⟨mkLineItem r (code, descr),
      List.mem_filterMap.mpr ⟨(code, descr), hmem, ?_⟩, rfl, rfl, rfl⟩
    dsimp only
    rw [if_neg hnz]
  · intro li hli
    obtain ⟨p, _, he⟩ := List.mem_filterMap.mp hli
    by_cases h : (r.charges p.1).getD 0 = 0
    · rw [if_pos h] at he
      exact Option.noConfusion he
    · rw [if_neg h] at he
      cases he
      rfl

/-- C4 witness: the FRT charge of the sample row yields a line item
with the debit sign convention. -/
theorem c4_witness :
    ("FRT", "Freight Charges") ∈ chargeDescriptions ∧
    (c4row.charges "FRT").getD 0 ≠ 0 ∧
    ((∃ li ∈ create_line_items c4row,
        li.description = "Freight Charges" ++ " - " ++ c4row.jobInvoice ∧
        li.unit_amount =
          (if isCreditNote c4row then -pyAbs ((c4row.charges "FRT").getD 0)
           else pyAbs ((c4row.charges "FRT").getD 0)) ∧
        li.line_amount = li.unit_amount) ∧
      ∀ li ∈ create_line_items c4row, li.unit_amount = li.line_amount) :=
  ⟨by decide, by decide, c4 c4row "FRT" "Freight Charges" (by decide) (by decide)⟩

/-- C5: zero or absent charge codes never produce a line item (the
line-item list is exactly the mapped filter of the nonzero known
codes), and a row whose known charge codes are all zero/absent makes
the transformation fail with the empty-line-item validation error. -/
theorem c5 (r : ChargeRow) (c : String) :
    create_line_items r =
      ((chargeDescriptions.filter fun p => decide ((r.charges p.1).getD 0 ≠ 0)).map
        (mkLineItem r)) ∧
    ((∀ p ∈ chargeDescriptions, (r.charges p.1).getD 0 = 0) →
      create_invoice r c = .error ("No valid charges found for shipment " ++ r.shipment)) := by
  have h1 := filterMap_guard (fun p : String × String => (r.charges p.1).getD 0)
    (mkLineItem r) chargeDescriptions
  constructor
  · exact h1
  · intro hz
    have hfil : (chargeDescriptions.filter fun p =>
        decide ((r.charges p.1).getD 0 ≠ 0)) = [] := by
      rw [List.filter_eq_nil_iff]
      intro p hp
      simp [hz p hp]
    have hnil : create_line_items r = [] := by
      rw [show create_line_items r =
        ((chargeDescriptions.filter fun p => decide ((r.charges p.1).getD 0 ≠ 0)).map
          (mkLineItem r)) from h1, hfil]
      rfl
    simp [create_invoice, hnil]

/-- C5 witness: a row with every known charge absent produces the
empty-charges validation error. -/
theorem c5_witness :
    (∀ p ∈ chargeDescriptions, (c5row.charges p.1).getD 0 = 0) ∧
    create_invoice c5row "cid" =
      .error ("No valid charges found for shipment " ++ c5row.shipment) :=
  ⟨by decide, (c5 c5row "cid").2 (by decide)⟩

/-- C7 counterexample: for the row with date `"banana"` and a nonzero
FRT charge, the transformation fails with the Python `int()` parse
error, whose message does not contain the row's shipment id
`"SHIP77"` — contradicting the claim that the error names the
shipment id. -/
theorem c7_counterexample :
    create_invoice c7row "cid" =
      .error "invalid literal for int() with base 10: banana" ∧
    occursIn c7row.shipment.data
      "invalid literal for int() with base 10: banana".data = false := by
  constructor
  · decide
  · decide

/-- C7 (amended): a row with a nonempty line-item set whose date field
fails to parse makes the transformation fail with exactly the parse
error of the date field — a message derived from the date field alone,
which does not name the shipment id. -/
theorem c7_amended (r : ChargeRow) (c e : String)
    (hitems : create_line_items r ≠ [])
    (hdate : parseDateValue r.invDate = .error e) :
    create_invoice r c = .error e := by
  have hne : (create_line_items r).isEmpty = false := by
    cases hcl : create_line_items r with
    | nil => exact absurd hcl hitems
    | cons a t => rfl
  simp [create_invoice, hne, hdate]

/-- C7 witness: the amended statement evaluated on the `"banana"` row. -/
theorem c7_amended_witness :
    create_line_items c7row ≠ [] ∧
    parseDateValue c7row.invDate =
      .error "invalid literal for int() with base 10: banana" ∧
    create_invoice c7row "cid" =
      .error "invalid literal for int() with base 10: banana" :=
  ⟨by decide, by decide, c7_amended c7row "cid" _ (by decide) (by decide)⟩

/-- C1: the batch produces exactly one outcome per row in source order,
and the outcome at position `k` is a function of row `k` alone — so a
validation, remote-rejection or network failure at any row never
prevents the remaining rows from being attempted. -/
theorem c1 (submit : ℕ → Invoice → SubmitResult) (contact : String)
    (rows : List ChargeRow) (k : ℕ) (row : ChargeRow)
    (h : rows[k]? = some row) :
    (process_invoices submit contact 0 rows).length = rows.length ∧
    (process_invoices submit contact 0 rows)[k]? =
      some (processRow submit contact k row) := by
  refine ⟨process_invoices_length submit contact rows 0, ?_⟩
  rw [process_invoices_getElem submit contact rows 0 k, h]
  simp

/-- Submission oracle that always succeeds with one invoice id. -/
def c1submit : ℕ → Invoice → SubmitResult := fun _ _ => .ok ⟨[⟨some "INV-1"⟩]⟩

/-- `[valid, malformed, valid]` rows. -/
def c1rows : List ChargeRow := [c4row, c7row, c4row]

/-- C1 witness: on `[valid, malformed, valid]` the run yields
`[success, error, success]` in source order. -/
theorem c1_witness :
    c1rows[1]? = some c7row ∧
    ((process_invoices c1submit "cid" 0 c1rows).length = c1rows.length ∧
      (process_invoices c1submit "cid" 0 c1rows)[1]? =
        some (processRow c1submit "cid" 1 c7row)) ∧
    process_invoices c1submit "cid" 0 c1rows =
      [.success "S1" "J-100" "STD" (some "INV-1") 50 "03/01/2024",
       .error "SHIP77" "J1" "STD" "invalid literal for int() with base 10: banana",
       .success "S1" "J-100" "STD" (some "INV-1") 50 "03/01/2024"] :=
  ⟨rfl, c1 c1submit "cid" c1rows 1 c7row rfl, by decide⟩

/-- The draft the sample row `c4row` transforms into. -/
def c4inv : Invoice :=
  { type := "ACCREC", contact_id := "cid",
    line_items := [⟨"Freight Charges - J-100", 1, 50, "200", "NONE", 50⟩],
    date := ⟨daysFromCivil ⟨2024, 3, 1⟩, 0⟩,
    due_date := ⟨daysFromCivil ⟨2024, 3, 1⟩ + 30, 0⟩,
    reference := "J-100", status := "DRAFT", line_amount_types := "EXCLUSIVE" }

/-- C6: a successfully transformed row has an issue date that is the
parsed `MM/DD/YYYY` calendar date at UTC midnight, and a due date that
is exactly 30 calendar-day steps later (month and year rollovers
included), also at UTC midnight. -/
theorem c6 (r : ChargeRow) (contact : String) (inv : Invoice)
    (h : create_invoice r contact = .ok inv) :
    ∃ x : Ymd, parseDateValue r.invDate = .ok x ∧ validYmd x ∧
      inv.date = ⟨daysFromCivil x, 0⟩ ∧
      inv.due_date = ⟨daysFromCivil (addDays 30 x), 0⟩ ∧
      inv.due_date.day = inv.date.day + 30 ∧
      inv.date.sod = 0 ∧ inv.due_date.sod = 0 := by
  unfold create_invoice at h
  dsimp only at h
  split at h
  · exact Except.noConfusion h
  · cases hp : parseDateValue r.invDate with
    | error e => rw [hp] at h; exact Except.noConfusion h
    | ok x =>
      rw [hp] at h
      dsimp only at h
      split at h
      · exact Except.noConfusion h
      · obtain ⟨hv, _⟩ := parseDateValue_valid _ _ hp
        obtain ⟨hd30, _⟩ := daysFromCivil_addDays 30 x hv
        cases h
        refine ⟨x, rfl, hv, rfl, ?_, rfl, rfl, rfl⟩
        show Instant.mk (daysFromCivil x + 30) 0 = ⟨daysFromCivil (addDays 30 x), 0⟩
        rw [hd30]

/-- C6 witness: the `03/01/2024` row (spec example) yields issue date
2024-03-01T00:00:00Z and due date 30 days later. -/
theorem c6_witness :
    create_invoice c4row "cid" = .ok c4inv ∧
    (∃ x : Ymd, parseDateValue c4row.invDate = .ok x ∧ validYmd x ∧
      c4inv.date = ⟨daysFromCivil x, 0⟩ ∧
      c4inv.due_date = ⟨daysFromCivil (addDays 30 x), 0⟩ ∧
      c4inv.due_date.day = c4inv.date.day + 30 ∧
      c4inv.date.sod = 0 ∧ c4inv.due_date.sod = 0) :=
  ⟨by decide, c6 c4row "cid" c4inv (by decide)⟩

/-- C8: the run summary is a pure aggregation of the outcome sequence:
`successful`/`failed` count the success/error entries, they partition
the outcomes, and `total_amount` is the 2-decimal rounding of the sum
of amounts over the success entries only. -/
theorem c8 (submit : ℕ → Invoice → SubmitResult) (contact : String)
    (rows : List ChargeRow) :
    (runSummary (process_invoices submit contact 0 rows)).total_processed
      = (process_invoices submit contact 0 rows).length ∧
    (runSummary (process_invoices submit contact 0 rows)).successful
      = ((process_invoices submit contact 0 rows).filter
          fun o => statusOf o == "success").length ∧
    (runSummary (process_invoices submit contact 0 rows)).failed
      = ((process_invoices submit contact 0 rows).filter
          fun o => statusOf o == "error").length ∧
    (runSummary (process_invoices submit contact 0 rows)).successful
        + (runSummary (process_invoices submit contact 0 rows)).failed
      = (process_invoices submit contact 0 rows).length ∧
    (runSummary (process_invoices submit contact 0 rows)).total_amount
      = round2 ((((process_invoices submit contact 0 rows).filter
          fun o => statusOf o == "success").map amountOf).sum) := by
  have hs := List.countP_eq_length_filter
    (fun o => statusOf o == "success") (process_invoices submit contact 0 rows)
  have he := List.countP_eq_length_filter
    (fun o => statusOf o == "error") (process_invoices submit contact 0 rows)
  have hp := outcome_partition (process_invoices submit contact 0 rows)
  have e1 : (runSummary (process_invoices submit contact 0 rows)).successful
      = (process_invoices submit contact 0 rows).countP
          (fun o => statusOf o == "success") := rfl
  have e2 : (runSummary (process_invoices submit contact 0 rows)).failed
      = (process_invoices submit contact 0 rows).countP
          (fun o => statusOf o == "error") := rfl
  refine ⟨rfl, hs, he, ?_, rfl⟩
  omega

/-- Submission oracle whose response carries no invoices. -/
def c9submit : ℕ → Invoice → SubmitResult := fun _ _ => .ok ⟨[]⟩

/-- C9 counterexample: a submission that succeeds with a response
containing no invoices is recorded as a success outcome whose
`invoice_id` is null — contradicting the claim that every success
outcome carries a non-null remote-assigned invoice id. -/
theorem c9_counterexample :
    process_invoices c9submit "cid" 0 [c4row] =
      [.success "S1" "J-100" "STD" none 50 "03/01/2024"] := by
  decide

/-- C9 (amended): a row whose submission succeeds is recorded as a
success outcome whose `invoice_id` is the id of the first invoice of
the response when the response contains one, and null otherwise. -/
theorem c9_amended (submit : ℕ → Invoice → SubmitResult) (contact : String)
    (rows : List ChargeRow) (k : ℕ) (row : ChargeRow) (inv : Invoice)
    (resp : InvoicesResponse)
    (hr : rows[k]? = some row)
    (hinv : create_invoice row contact = .ok inv)
    (hsub : submit k inv = .ok resp) :
    (process_invoices submit contact 0 rows)[k]? =
      some (.success row.shipment row.jobInvoice row.type (firstInvoiceId resp)
        (row.totalInvoice.getD 0) row.invDate) := by
  have h0 : (0 : ℕ) + k = k := Nat.zero_add k
  rw [process_invoices_getElem submit contact rows 0 k, h0, hr]
  show some (processRow submit contact k row) = _
  simp [processRow, hinv, hsub]

/-- Submission oracle answering with one invoice id `INV-9`. -/
def c9submitOk : ℕ → Invoice → SubmitResult := fun _ _ => .ok ⟨[⟨some "INV-9"⟩]⟩

/-- C9 witness: with a response carrying invoice id `INV-9`, the
success outcome records exactly that id. -/
theorem c9_amended_witness :
    [c4row][0]? = some c4row ∧
    create_invoice c4row "cid" = .ok c4inv ∧
    c9submitOk 0 c4inv = .ok ⟨[⟨some "INV-9"⟩]⟩ ∧
    (process_invoices c9submitOk "cid" 0 [c4row])[0]? =
      some (.success c4row.shipment c4row.jobInvoice c4row.type
        (firstInvoiceId ⟨[⟨some "INV-9"⟩]⟩) (c4row.totalInvoice.getD 0) c4row.invDate) :=
  ⟨rfl, by decide, rfl,
    c9_amended c9submitOk "cid" [c4row] 0 c4row c4inv ⟨[⟨some "INV-9"⟩]⟩
      rfl (by decide) rfl⟩

/-- C2: when the wrapped operation answers every attempt with a 401
`ApiException` and refreshes go through, the decorated call invokes the
wrapped operation exactly twice (initial call plus one refresh-and-retry
cycle) and then re-raises the 401 unmodified. -/
theorem c2 (α : Type) (env : Env α) (t0 : Option Token)
    (hc : ∀ k, env.call k = .apiErr 401)
    (hr : ∀ k, (env.refresh k).isSome) :
    (decoratedFunction env t0).1 = .raiseApi 401 ∧
    (decoratedFunction env t0).2.fCount = 2 := by
  obtain ⟨r0, hr0⟩ := Option.isSome_iff_exists.mp (hr 0)
  obtain ⟨r1, hr1⟩ := Option.isSome_iff_exists.mp (hr 1)
  obtain ⟨r2, hr2⟩ := Option.isSome_iff_exists.mp (hr 2)
  unfold decoratedFunction loopIter callStep
  by_cases h1 : is_token_expired t0 env.now
  · by_cases h2 : is_token_expired (some r1) env.now
    · simp +decide [h1, h2, hr0, hr1, hr2, hc]
    · simp +decide [h1, h2, hr0, hr1, hr2, hc]
  · by_cases h2 : is_token_expired (some r0) env.now
    · simp +decide [h1, h2, hr0, hr1, hc]
    · simp +decide [h1, h2, hr0, hr1, hc]

/-- Environment whose wrapped call always raises 401 and whose refresh
always succeeds. -/
def c2env : Env ℕ :=
  { now := 0, refresh := fun _ => some ⟨some 1000000⟩, call := fun _ => .apiErr 401 }

/-- C2 witness: the always-401 stub environment makes exactly 2 wrapped
calls and surfaces the 401. -/
theorem c2_witness :
    (∀ k, c2env.call k = FResult.apiErr 401) ∧
    (decoratedFunction c2env none).1 = .raiseApi 401 ∧
    (decoratedFunction c2env none).2.fCount = 2 :=
  ⟨fun _ => rfl, (c2 ℕ c2env none (fun _ => rfl) (fun _ => rfl)).1,
    (c2 ℕ c2env none (fun _ => rfl) (fun _ => rfl)).2⟩

/-- C3 counterexample: the stored token is missing, the refresh returns
a token that expires immediately (`expires_at = now`), yet the
decorated call persists it and proceeds to invoke the wrapped operation
— so the call does not proceed with a token of remaining lifetime at
least 30 seconds, contradicting that part of the claim. -/
def c3env : Env ℕ :=
  { now := 0, refresh := fun _ => some ⟨some 0⟩, call := fun _ => .ok 7 }

/-- C3 counterexample (see `c3env`): the run succeeds with one refresh
and one wrapped call even though the stored refreshed token is already
expired by the 30-second margin. -/
theorem c3_counterexample :
    decoratedFunction c3env none = (.value 7, ⟨some ⟨some 0⟩, 1, 1⟩) ∧
    is_token_expired (some ⟨some 0⟩) c3env.now = true := by
  constructor
  · decide
  · decide

/-- C3 (amended): a stored token is treated as expired exactly when it
is missing, lacks `expires_at`, or has remaining lifetime under 30
seconds; in that case the decorated call performs exactly one refresh
round-trip, persists the refreshed token, and proceeds with it without
re-checking its lifetime; if the refresh fails, the call redirects to
login without retrying the refresh. -/
theorem c3_amended :
    (∀ (tok : Option Token) (now : ℤ),
      is_token_expired tok now = true ↔
        (tok = none ∨ ∃ t, tok = some t ∧
          (t.expires_at = none ∨ ∃ e, t.expires_at = some e ∧ e - now < 30))) ∧
    (∀ (α : Type) (env : Env α) (t0 : Option Token) (t : Token) (v : α),
      is_token_expired t0 env.now = true → env.refresh 0 = some t →
      env.call 0 = .ok v →
      decoratedFunction env t0 = (.value v, ⟨some t, 1, 1⟩)) ∧
    (∀ (α : Type) (env : Env α) (t0 : Option Token),
      is_token_expired t0 env.now = true → env.refresh 0 = none →
      decoratedFunction env t0 = (.redirectLogin, ⟨t0, 1, 0⟩)) := by
  refine ⟨?_, ?_, ?_⟩
  · intro tok now
    cases tok with
    | none => simp [is_token_expired]
    | some t =>
      cases he : t.expires_at with
      | none => simp [is_token_expired, he]
      | some e => simp [is_token_expired, he]
  · intro α env t0 t v hexp hr hc
    unfold decoratedFunction loopIter callStep
    simp [hexp, hr, hc]
  · intro α env t0 hexp hr
    unfold decoratedFunction loopIter
    simp [hexp, hr]

/-- Environment answering the wrapped call with a value after a
successful refresh. -/
def c3envB : Env ℕ :=
  { now := 0, refresh := fun _ => some ⟨some 10000⟩, call := fun _ => .ok 9 }

/-- Environment whose refresh always fails. -/
def c3envC : Env ℕ :=
  { now := 0, refresh := fun _ => none, call := fun _ => .ok 9 }

/-- C3 witness: the three amended parts evaluated at concrete
environments. -/
theorem c3_amended_witness :
    (is_token_expired (some ⟨some 0⟩) 0 = true ↔
      ((some ⟨some 0⟩ : Option Token) = none ∨
        ∃ t, (some ⟨some 0⟩ : Option Token) = some t ∧
          (t.expires_at = none ∨ ∃ e, t.expires_at = some e ∧ e - 0 < 30))) ∧
    decoratedFunction c3envB none = (.value 9, ⟨some ⟨some 10000⟩, 1, 1⟩) ∧
    decoratedFunction c3envC none = (.redirectLogin, ⟨none, 1, 0⟩) :=
  ⟨c3_amended.1 (some ⟨some 0⟩) 0,
    c3_amended.2.1 ℕ c3envB none ⟨some 10000⟩ 9 (by decide) rfl rfl,
    c3_amended.2.2 ℕ c3envC none (by decide) rfl⟩

/-- C10: a `TokenRefreshError` raised by the refresh inside the 401
handler propagates to the caller (the sibling handler of the same
`try` does not catch it), while the redirect-to-login branch applies
exactly to refresh failures detected before the wrapped operation is
invoked in that loop iteration. -/
theorem c10 (α : Type) (env : Env α) (t0 : Option Token) :
    (is_token_expired t0 env.now = false → env.call 0 = .apiErr 401 →
      env.refresh 0 = none →
      decoratedFunction env t0 = (.raiseTokenRefresh, ⟨t0, 1, 1⟩)) ∧
    (is_token_expired t0 env.now = true → env.refresh 0 = none →
      decoratedFunction env t0 = (.redirectLogin, ⟨t0, 1, 0⟩)) := by
  constructor
  · intro hexp hc hr
    unfold decoratedFunction loopIter callStep
    simp +decide [hexp, hc, hr]
  · intro hexp hr
    unfold decoratedFunction loopIter
    simp [hexp, hr]

/-- Environment with failing refresh and always-401 wrapped call. -/
def c10env : Env ℕ :=
  { now := 0, refresh := fun _ => none, call := fun _ => .apiErr 401 }

/-- C10 witness: with a fresh stored token the 401-triggered refresh
failure propagates as `TokenRefreshError` after one wrapped call; with
a missing stored token the pre-call refresh failure redirects to login
with no wrapped call. -/
theorem c10_witness :
    (is_token_expired (some ⟨some 10000⟩) c10env.now = false ∧
      decoratedFunction c10env (some ⟨some 10000⟩) =
        (.raiseTokenRefresh, ⟨some ⟨some 10000⟩, 1, 1⟩)) ∧
    (is_token_expired none c10env.now = true ∧
      decoratedFunction c10env none = (.redirectLogin, ⟨none, 1, 0⟩)) :=
  ⟨⟨by decide, (c10 ℕ c10env (some ⟨some 10000⟩)).1 (by decide) rfl rfl⟩,
    ⟨by decide, (c10 ℕ c10env none).2 (by decide) rfl⟩⟩

end XeroSync
